import Mathlib

/-!
Shallow embedding of the ESP32 seismograph event-detection pipeline
(`src/seismograph.cpp` / `seismograph.h`, `time_manager.cpp`, `data_logger.cpp`,
`dual_core_manager.cpp`, `config.h`).

Modelling conventions:
* `float` values are modelled as exact rationals (`ℚ`); the spec's properties are
  stated in exact arithmetic.  `isnan` on a rational value is therefore `false`
  and is dropped where the C code tests it together with an ordering test.
* `unsigned long` timestamps are modelled as `ℕ`; differences `a - b` of
  timestamps are 32-bit wrap-around subtractions, modelled by `wsub32`.
* Functions touching logarithms / square roots (`calculateRichterMagnitude`,
  `calculatePGAFromRichter`, `calibrate`) are modelled over `ℝ`.
* Hardware reads (`mpu.getMotion6`, `millis()`), the external `TimeManager`
  singleton and the global logger/core-manager pointers are environment inputs.
-/

namespace Seismo

/-! ### Constants from `config.h` -/

def STA_WINDOW : ℕ := 25
def LTA_WINDOW : ℕ := 2500
def STA_LTA_RATIO : ℚ := 5/2
def THRESHOLD_MICRO : ℚ := 1/1000
def THRESHOLD_LIGHT : ℚ := 5/1000
def THRESHOLD_STRONG : ℚ := 2/100
def MIN_EVENT_DURATION : ℕ := 100
def NTP_SYNC_INTERVAL : ℕ := 3600000
def SPIKE_MEDIAN_MULTIPLIER : ℚ := 5
def SPIKE_THRESHOLD_MULTIPLIER : ℚ := 2
def LOCAL_MAGNITUDE_OFFSET : ℝ := 0

/-- 32-bit wrap-around subtraction `a - b` on `unsigned long` timestamps. -/
def wsub32 (a b : ℕ) : ℕ := ((a % 2^32) + (2^32 - b % 2^32)) % 2^32

/-! ### TimeManager (`time_manager.cpp`, appended to `web_server.h`) -/

/-- Mutable state of the `TimeManager` singleton. -/
structure TMState where
  initialized : Bool
  lastSync : ℕ
  bootTime : ℕ
  deriving DecidableEq, Repr

/-- `TimeManager::isTimeValid()`:
`return initialized && (millis() - lastSync < NTP_SYNC_INTERVAL * 2);` -/
def isTimeValid (st : TMState) (millis : ℕ) : Bool :=
  st.initialized && decide (wsub32 millis st.lastSync < NTP_SYNC_INTERVAL * 2)

/-- `TimeManager::getEpochTime()`; `ntpEpoch` is what `timeClient.getEpochTime()`
returns from the NTP library. -/
def getEpochTime (st : TMState) (millis ntpEpoch : ℕ) : ℕ :=
  if st.initialized = false then st.bootTime + millis / 1000 else ntpEpoch

/-! ### Seismograph data model (`seismograph.h`) -/

/-- `SensorData` as produced by `Seismograph::readSensor` (post-calibration
components; the magnitude is part of the hardware-boundary input since
`sqrt` of the components is not rational). -/
structure SensorQ where
  accelX : ℚ
  accelY : ℚ
  accelZ : ℚ
  magnitude : ℚ
  timestamp : ℕ
  deriving DecidableEq, Repr

/-- The mutable fields of class `Seismograph` used by the detection pipeline
(the real-valued calibration offsets live in `CalibState` below). -/
structure SeisState where
  initialized : Bool
  staBuffer : List ℚ
  ltaBuffer : List ℚ
  staIndex : ℕ
  ltaIndex : ℕ
  staSum : ℚ
  ltaSum : ℚ
  staFull : Bool
  ltaFull : Bool
  eventActive : Bool
  eventStartTime : ℕ
  eventMaxMagnitude : ℚ
  eventSumMagnitude : ℚ
  eventSampleCount : ℕ
  adaptiveThresholdMicro : ℚ
  adaptiveThresholdLight : ℚ
  adaptiveThresholdStrong : ℚ
  backgroundNoise : ℚ
  lastAdaptiveUpdate : ℕ
  adaptiveThresholdEnabled : Bool
  lastMagnitudes : List ℚ
  magnitudeIndex : ℕ
  magnitudeBufferFull : Bool
  totalSamples : ℕ
  eventsDetected : ℕ
  spikesFiltered : ℕ
  lastMagnitude : ℚ
  lastCalibrationTime : ℕ
  baselineLTA : ℚ
  lastDriftCheck : ℕ
  calibrationValid : Bool
  detailedLoggingEnabled : Bool
  deriving DecidableEq, Repr

/-- The `Seismograph()` constructor state (after `initialized = true` from
`begin()`; the MPU handshake is a hardware boundary). -/
def initState : SeisState where
  initialized := true
  staBuffer := List.replicate STA_WINDOW 0
  ltaBuffer := List.replicate LTA_WINDOW 0
  staIndex := 0
  ltaIndex := 0
  staSum := 0
  ltaSum := 0
  staFull := false
  ltaFull := false
  eventActive := false
  eventStartTime := 0
  eventMaxMagnitude := 0
  eventSumMagnitude := 0
  eventSampleCount := 0
  adaptiveThresholdMicro := THRESHOLD_MICRO
  adaptiveThresholdLight := THRESHOLD_LIGHT
  adaptiveThresholdStrong := THRESHOLD_STRONG
  backgroundNoise := 1/1000
  lastAdaptiveUpdate := 0
  adaptiveThresholdEnabled := true
  lastMagnitudes := List.replicate 5 0
  magnitudeIndex := 0
  magnitudeBufferFull := false
  totalSamples := 0
  eventsDetected := 0
  spikesFiltered := 0
  lastMagnitude := 0
  lastCalibrationTime := 0
  baselineLTA := 0
  lastDriftCheck := 0
  calibrationValid := false
  detailedLoggingEnabled := false

/-- Environment of one call into the `Seismograph`: the wall-clock trust and
epoch reported by the `timeManager` singleton, the current `millis()` tick,
the sensor frame a `readSensor()` call would deliver, and the presence /
initialization of the global logger and core-manager singletons. -/
structure Env where
  timeValid : Bool
  epochTime : ℕ
  now : ℕ
  reading : SensorQ
  loggerPresent : Bool
  loggerInit : Bool
  managerPresent : Bool
  deriving DecidableEq, Repr

/-- The fields of `SeismicEventData` that the event pipeline itself fills with
non-derived data (`calculateRichterMagnitude` and friends are pure functions
of `pgaG`, modelled separately over `ℝ`). -/
structure SeismicRecord where
  timestamp : ℕ
  ntpValidated : Bool
  bootTimeMs : ℕ
  intensityLevel : ℕ
  pgaG : ℚ
  durationMs : ℕ
  maxAccelX : ℚ
  maxAccelY : ℚ
  maxAccelZ : ℚ
  vectorMagnitude : ℚ
  calibrationValid : Bool
  deriving DecidableEq, Repr

/-- `EventPacket` sent to the dual-core event queue. -/
structure EventPacket where
  magnitude : ℚ
  level : ℕ
  timestamp : ℕ
  deriving DecidableEq, Repr

/-- Output of one pipeline step: the new `Seismograph` state, the persisted
seismic-record file (`DataLogger`), the records created by
`createSeismicEvent`, and the packets handed to `sendEvent`. -/
structure StepOut where
  state : SeisState
  log : List SeismicRecord
  emitted : List SeismicRecord
  sent : List EventPacket
  deriving DecidableEq, Repr

/-! ### STA/LTA detector (`Seismograph::updateSTALTA`, `checkEventTrigger`) -/

/-- `Seismograph::updateSTALTA`. -/
def updateSTALTA (s : SeisState) (magnitude : ℚ) : SeisState :=
  let staSum1 := s.staSum - s.staBuffer.getD s.staIndex 0 + magnitude
  let staBuffer1 := s.staBuffer.set s.staIndex magnitude
  let staIndex1 := (s.staIndex + 1) % STA_WINDOW
  let staFull1 := if staIndex1 = 0 then true else s.staFull
  let ltaSum1 := s.ltaSum - s.ltaBuffer.getD s.ltaIndex 0 + magnitude
  let ltaBuffer1 := s.ltaBuffer.set s.ltaIndex magnitude
  let ltaIndex1 := (s.ltaIndex + 1) % LTA_WINDOW
  let ltaFull1 := if ltaIndex1 = 0 then true else s.ltaFull
  { s with
    staSum := staSum1, staBuffer := staBuffer1, staIndex := staIndex1, staFull := staFull1
    ltaSum := ltaSum1, ltaBuffer := ltaBuffer1, ltaIndex := ltaIndex1, ltaFull := ltaFull1 }

/-- `Seismograph::checkEventTrigger`. -/
def checkEventTrigger (s : SeisState) : Bool :=
  if s.staFull = false || s.ltaFull = false then false
  else
    let sta := s.staSum / (STA_WINDOW : ℚ)
    let lta := s.ltaSum / (LTA_WINDOW : ℚ)
    if lta = 0 then false
    else decide (sta / lta > STA_LTA_RATIO)

/-! ### Adaptive thresholds (`Seismograph::updateAdaptiveThresholds`) -/

/-- The Arduino `constrain(amt, low, high)` macro. -/
def constrainQ (x lo hi : ℚ) : ℚ :=
  if x < lo then lo else if x > hi then hi else x

/-- `Seismograph::updateAdaptiveThresholds` (`now` is `millis()`).  The
`isnan` guards of the C code are dropped: rational arithmetic has no NaN. -/
def updateAdaptiveThresholds (s : SeisState) (now : ℕ) : SeisState :=
  if s.adaptiveThresholdEnabled = false then s
  else if wsub32 now s.lastAdaptiveUpdate < 30000 then s
  else
    let s1 := { s with lastAdaptiveUpdate := now }
    if s1.ltaFull = false then s1
    else
      let lta0 := s1.ltaSum / (LTA_WINDOW : ℚ)
      let lta := if lta0 < 1/10000 then 1/1000 else lta0
      let s2 := { s1 with backgroundNoise := lta }
      let adaptationFactor0 : ℚ :=
        if THRESHOLD_MICRO > 0 ∧ s2.backgroundNoise > 0 then
          1 + s2.backgroundNoise / THRESHOLD_MICRO
        else 1
      let adaptationFactor := constrainQ adaptationFactor0 (1/2) 3
      let micro0 := THRESHOLD_MICRO * adaptationFactor
      let light0 := THRESHOLD_LIGHT * adaptationFactor
      let strong0 := THRESHOLD_STRONG * adaptationFactor
      let micro1 := if micro0 ≤ 0 then THRESHOLD_MICRO else micro0
      let light1 := if light0 ≤ 0 then THRESHOLD_LIGHT else light0
      let strong1 := if strong0 ≤ 0 then THRESHOLD_STRONG else strong0
      let micro2 := constrainQ micro1 (THRESHOLD_MICRO * (1/2)) (THRESHOLD_MICRO * 3)
      let light2 := constrainQ light1 (THRESHOLD_LIGHT * (1/2)) (THRESHOLD_LIGHT * 3)
      let strong2 := constrainQ strong1 (THRESHOLD_STRONG * (1/2)) (THRESHOLD_STRONG * 3)
      { s2 with
        adaptiveThresholdMicro := micro2
        adaptiveThresholdLight := light2
        adaptiveThresholdStrong := strong2 }

/-! ### Spike filter (`Seismograph::isSpikeFiltered`, `getMedianMagnitude`) -/

/-- Index of the minimum of `l` over positions `start..l.length-1` (the inner
loop of `getMedianMagnitude`; strict `<` keeps the first minimum). -/
def argminFrom (l : List ℚ) (start : ℕ) : ℕ :=
  (List.drop (start + 1) (List.range l.length)).foldl
    (fun minIdx j => if l.getD j 0 < l.getD minIdx 0 then j else minIdx) start

/-- Swap positions `i` and `j` of `l`. -/
def swapAt (l : List ℚ) (i j : ℕ) : List ℚ :=
  let a := l.getD i 0
  let b := l.getD j 0
  (l.set i b).set j a

/-- One outer iteration of the partial selection sort in
`getMedianMagnitude`: move the minimum of the suffix to position `i`. -/
def selPass (l : List ℚ) (i : ℕ) : List ℚ :=
  let minIdx := argminFrom l i
  if minIdx ≠ i then swapAt l i minIdx else l

/-- `Seismograph::getMedianMagnitude` on the five-entry `lastMagnitudes`
buffer: three selection passes, then the element at position 2. -/
def getMedianMagnitude (l : List ℚ) : ℚ :=
  (selPass (selPass (selPass l 0) 1) 2).getD 2 0

/-- `Seismograph::isSpikeFiltered`. -/
def isSpikeFiltered (s : SeisState) (magnitude : ℚ) : Bool :=
  if s.magnitudeBufferFull = false then false
  else
    let median := getMedianMagnitude s.lastMagnitudes
    let thresholdMicro :=
      if s.adaptiveThresholdEnabled then s.adaptiveThresholdMicro else THRESHOLD_MICRO
    let exceedsMedian := decide (magnitude > median * SPIKE_MEDIAN_MULTIPLIER)
    let exceedsThreshold := decide (magnitude > thresholdMicro * SPIKE_THRESHOLD_MULTIPLIER)
    exceedsMedian && exceedsThreshold

/-! ### Event lifecycle (`Seismograph::startEvent`, `endEvent`,
`createSeismicEvent`, `classifyEvent`; `DataLogger::logSeismicEvent`) -/

/-- `Seismograph::classifyEvent` / `getIntensityLevelFromRichter`: the level
determined by `calculateRichterMagnitude m ≥ c` cutoffs.  Since
`richter = clamp(log10(m·9806.65), -2, 10)` for `m > 0` (and `-10` for
`m ≤ 0`), `richter ≥ c` for `c ∈ {2,…,7}` is equivalent to
`m·9806.65 ≥ 10^c`, which keeps the classification in exact rational
arithmetic. -/
def classifyEventQ (m : ℚ) : ℕ :=
  if m ≤ 0 then 1
  else if m * (980665/100) ≥ 10^7 then 6
  else if m * (980665/100) ≥ 10^6 then 5
  else if m * (980665/100) ≥ 10^5 then 4
  else if m * (980665/100) ≥ 10^4 then 3
  else if m * (980665/100) ≥ 10^2 then 2
  else 1

/-- `Seismograph::startEvent`. -/
def startEvent (s : SeisState) (magnitude : ℚ) (now : ℕ) : SeisState :=
  { s with
    eventActive := true
    eventStartTime := now
    eventMaxMagnitude := magnitude
    eventSumMagnitude := magnitude
    eventSampleCount := 1 }

/-- `Seismograph::checkCalibrationDrift` (`now` is `millis()`).  Only the
state mutations are modelled; the final NaN/negative-LTA re-check of the C
code is gated on `calibrationValid && detailedLoggingEnabled` exactly as in
the source. -/
def checkCalibrationDrift (s : SeisState) (now : ℕ) : SeisState :=
  if wsub32 now s.lastDriftCheck < 300000 then s
  else
    let s1 := { s with lastDriftCheck := now }
    if s1.calibrationValid = false ∨ s1.ltaFull = false ∨ s1.baselineLTA ≤ 0 then s1
    else
      let currentLTA := s1.ltaSum / (LTA_WINDOW : ℚ)
      let driftPercent := ((currentLTA - s1.baselineLTA) / s1.baselineLTA) * 100
      let s2 := if |driftPercent| > 50 then { s1 with calibrationValid := false } else s1
      if s2.calibrationValid = true ∧ s2.detailedLoggingEnabled = true ∧ currentLTA < 0 then
        { s2 with calibrationValid := false }
      else s2

/-- `DataLogger::logSeismicEvent`: persists the record only when the logger is
initialized and `ntpValidated` holds. -/
def logSeismicEvent (loggerInit : Bool) (log : List SeismicRecord)
    (r : SeismicRecord) : List SeismicRecord × Bool :=
  if loggerInit = false then (log, false)
  else if r.ntpValidated = false then (log, false)
  else (log ++ [r], true)

/-- `Seismograph::createSeismicEvent`: re-checks wall-clock trust, builds the
record (the embedded `readSensor()` call advances `totalSamples` and
`lastMagnitude` when the sensor is initialized), and hands it to the global
`DataLogger` when present. -/
def createSeismicEvent (s : SeisState) (env : Env) (magnitude : ℚ)
    (duration : ℕ) (log : List SeismicRecord) :
    SeisState × List SeismicRecord × List SeismicRecord :=
  if env.timeValid = false then (s, log, [])
  else
    let lvl := classifyEventQ magnitude
    let reading : SensorQ :=
      if s.initialized then env.reading
      else { accelX := 0, accelY := 0, accelZ := 0, magnitude := 0, timestamp := env.now }
    let s1 :=
      if s.initialized then
        { s with totalSamples := s.totalSamples + 1, lastMagnitude := env.reading.magnitude }
      else s
    let r : SeismicRecord :=
      { timestamp := env.epochTime
        ntpValidated := true
        bootTimeMs := env.now
        intensityLevel := lvl
        pgaG := magnitude
        durationMs := duration
        maxAccelX := |reading.accelX|
        maxAccelY := |reading.accelY|
        maxAccelZ := |reading.accelZ|
        vectorMagnitude := magnitude
        calibrationValid := s1.calibrationValid }
    if env.loggerPresent then
      let out := logSeismicEvent env.loggerInit log r
      (s1, out.1, [r])
    else (s1, log, [r])

/-- `Seismograph::endEvent`: no-op without an active event; otherwise close
the event, bump `eventsDetected`, and — only when the `timeManager` reports
wall-clock trust — create/persist the record and forward a packet to the
dual-core event queue (`timestamp` is `getEpochTime() * 1000` in 32-bit
`unsigned long` arithmetic). -/
def endEvent (s : SeisState) (env : Env) (log : List SeismicRecord) : StepOut :=
  if s.eventActive = false then ⟨s, log, [], []⟩
  else
    let eventDuration := wsub32 env.now s.eventStartTime
    let level := classifyEventQ s.eventMaxMagnitude
    let s1 := { s with eventsDetected := s.eventsDetected + 1, eventActive := false }
    if env.timeValid = false then ⟨s1, log, [], []⟩
    else
      let out := createSeismicEvent s1 env s.eventMaxMagnitude eventDuration log
      let pkts :=
        if env.managerPresent then
          [({ magnitude := s.eventMaxMagnitude, level := level
              timestamp := (env.epochTime * 1000) % 2^32 } : EventPacket)]
        else []
      ⟨out.1, out.2.1, out.2.2, pkts⟩

/-! ### Per-sample processing (`Seismograph::processData`) -/

/-- The event-lifecycle tail of `Seismograph::processData` (from the trigger
check to the drift check), acting on the state `s4` left by the spike filter,
magnitude-buffer update, adaptive update and STA/LTA update. -/
def processDataEvents (s4 : SeisState) (data : SensorQ) (env : Env)
    (log : List SeismicRecord) : StepOut :=
  if checkEventTrigger s4 then
    let s5 :=
      if s4.eventActive = false then startEvent s4 data.magnitude env.now
      else
        let s4a :=
          if data.magnitude > s4.eventMaxMagnitude then
            { s4 with eventMaxMagnitude := data.magnitude }
          else s4
        { s4a with
          eventSumMagnitude := s4a.eventSumMagnitude + data.magnitude
          eventSampleCount := s4a.eventSampleCount + 1 }
    ⟨checkCalibrationDrift s5 env.now, log, [], []⟩
  else if s4.eventActive = true then
    let eventDuration := wsub32 env.now s4.eventStartTime
    if eventDuration ≥ MIN_EVENT_DURATION then
      let out := endEvent s4 env log
      ⟨checkCalibrationDrift out.state env.now, out.log, out.emitted, out.sent⟩
    else
      ⟨checkCalibrationDrift s4 env.now, log, [], []⟩
  else
    ⟨checkCalibrationDrift s4 env.now, log, [], []⟩

/-- `Seismograph::processData`. -/
def processData (s : SeisState) (data : SensorQ) (env : Env)
    (log : List SeismicRecord) : StepOut :=
  if isSpikeFiltered s data.magnitude then
    ⟨{ s with spikesFiltered := s.spikesFiltered + 1 }, log, [], []⟩
  else
    let s1 := { s with lastMagnitudes := s.lastMagnitudes.set s.magnitudeIndex data.magnitude }
    let idx1 := (s1.magnitudeIndex + 1) % 5
    let s2 := { s1 with
      magnitudeIndex := idx1
      magnitudeBufferFull := if idx1 = 0 then true else s1.magnitudeBufferFull }
    let s3 := updateAdaptiveThresholds s2 env.now
    let s4 := updateSTALTA s3 data.magnitude
    processDataEvents s4 data env log

/-! ### Simulation path (`Seismograph::simulateEvent`,
`calculateEventDuration`) -/

/-- `constrain` on `unsigned long`. -/
def constrainNat (x lo hi : ℕ) : ℕ :=
  if x < lo then lo else if x > hi then hi else x

/-- `Seismograph::calculateEventDuration`: piecewise-linear duration from the
Richter value, truncated to `unsigned long` and constrained to
`[100, 300000]` ms.  (`Int.toNat ∘ Int.floor` is C truncation for the
non-negative values produced on `richter ≥ 0`.) -/
def calculateEventDuration (richter : ℚ) : ℕ :=
  let d : ℚ :=
    if richter < 2 then 100 + richter * 200
    else if richter < 4 then 1000 + (richter - 2) * 2000
    else if richter < 6 then 5000 + (richter - 4) * 12500
    else if richter < 7 then 30000 + (richter - 6) * 90000
    else 120000 + (richter - 7) * 180000
  constrainNat (Int.toNat ⌊d⌋) 100 300000

/-- One iteration of the accumulation loop of `Seismograph::simulateEvent`:
`sampleMagnitude = realisticPGA * (0.8 + i*0.02)` updates the running
max/sum/count of the active event. -/
def simulateAccum (realisticPGA : ℚ) (t : SeisState) (i : ℕ) : SeisState :=
  let sampleMagnitude := realisticPGA * (8/10 + (i : ℚ) * (2/100))
  let t1 :=
    if sampleMagnitude > t.eventMaxMagnitude then
      { t with eventMaxMagnitude := sampleMagnitude }
    else t
  { t1 with
    eventSumMagnitude := t1.eventSumMagnitude + sampleMagnitude
    eventSampleCount := t1.eventSampleCount + 1 }

/-- `Seismograph::simulateEvent`.  `realisticPGA` is the value of
`calculatePGAFromRichter richterMagnitude`; the real-valued function is
defined below and the two are tied together in the theorems, because
`10^richter` is irrational for general rational `richter`.  The
`delay(simulatedDuration / 10)` advances `millis()` before `endEvent` and the
trailing `processData` call. -/
def simulateEvent (s : SeisState) (env : Env) (log : List SeismicRecord)
    (richterMagnitude realisticPGA : ℚ) : StepOut :=
  if s.eventActive = false then
    let s1 := startEvent s realisticPGA env.now
    let simulatedDuration := calculateEventDuration richterMagnitude
    let s2 := (List.range 10).foldl (simulateAccum realisticPGA) s1
    let env1 := { env with now := env.now + simulatedDuration / 10 }
    let out1 := endEvent s2 env1 log
    let simulatedData : SensorQ :=
      { accelX := realisticPGA * (6/10), accelY := realisticPGA * (3/10)
        accelZ := realisticPGA * (1/10), magnitude := realisticPGA
        timestamp := env1.now }
    let out2 := processData out1.state simulatedData env1 out1.log
    ⟨out2.state, out2.log, out1.emitted ++ out2.emitted, out1.sent ++ out2.sent⟩
  else
    let simulatedData : SensorQ :=
      { accelX := realisticPGA * (6/10), accelY := realisticPGA * (3/10)
        accelZ := realisticPGA * (1/10), magnitude := realisticPGA
        timestamp := env.now }
    processData s simulatedData env log

/-! ### Magnitude model over `ℝ` (`Seismograph::calculateRichterMagnitude`,
`calculatePGAFromRichter`) -/

/-- The Arduino `constrain` macro over `ℝ`. -/
noncomputable def constrainR (x lo hi : ℝ) : ℝ :=
  if x < lo then lo else if x > hi then hi else x

/-- `Seismograph::calculateRichterMagnitude`. -/
noncomputable def calculateRichterMagnitude (acceleration : ℝ) : ℝ :=
  if acceleration ≤ 0 then -10
  else
    let pga_mm_s2 := acceleration * 9806.65
    let magnitude := Real.logb 10 pga_mm_s2 - LOCAL_MAGNITUDE_OFFSET
    constrainR magnitude (-2) 10

/-- `Seismograph::calculatePGAFromRichter`.  The C code constrains `richter`
to `[-2, 10]` inside an `if` that fires exactly when the value is outside
that range, which is the same as constraining unconditionally. -/
noncomputable def calculatePGAFromRichter (richter : ℝ) : ℝ :=
  let richter1 := constrainR richter (-2) 10
  let pga_mm_s2 := (10 : ℝ) ^ richter1
  let pga_g := pga_mm_s2 / 9806.65
  constrainR pga_g (1/10000) 10

/-! ### Calibration engine (`Seismograph::calibrate`) -/

/-- The calibration-related fields of class `Seismograph`, over `ℝ` because
`calibrate` takes square roots. -/
structure CalibState where
  offsetX : ℝ
  offsetY : ℝ
  offsetZ : ℝ
  calibrated : Bool
  calibrationValid : Bool
  lastCalibrationOffsets : ℝ × ℝ × ℝ
  lastCalibrationTime : ℕ
  baselineLTA : ℝ

/-- Sensor frames consumed by one `calibrate()` run (already scaled to g by
`/ 16384.0f`; the raw register read is the hardware boundary), plus the
`millis()` value at the success point. -/
structure CalibIn where
  stability : List (ℝ × ℝ × ℝ)
  readings : List (ℝ × ℝ × ℝ)
  testReadings : List (ℝ × ℝ × ℝ)
  now : ℕ

/-- Per-axis standard deviation of the stability phase:
`sqrt (Σ (x_i - mean)² / n)` with `mean = Σ x_i / n`. -/
noncomputable def stdDevOf (l : List ℝ) (n : ℕ) : ℝ :=
  let mean := l.sum / n
  Real.sqrt ((l.map (fun x => (x - mean) ^ 2)).sum / n)

/-- Stability-phase standard deviation of the X axis (`stdDevX`). -/
noncomputable def calibStdX (inp : CalibIn) : ℝ :=
  stdDevOf (inp.stability.map (fun p => p.1)) 50

/-- Stability-phase standard deviation of the Y axis (`stdDevY`). -/
noncomputable def calibStdY (inp : CalibIn) : ℝ :=
  stdDevOf (inp.stability.map (fun p => p.2.1)) 50

/-- Stability-phase standard deviation of the Z axis (`stdDevZ`). -/
noncomputable def calibStdZ (inp : CalibIn) : ℝ :=
  stdDevOf (inp.stability.map (fun p => p.2.2)) 50

/-- `proposedOffsetX = sumX / samples`. -/
noncomputable def calibOffX (inp : CalibIn) : ℝ :=
  (inp.readings.map (fun p => p.1)).sum / 200

/-- `proposedOffsetY = sumY / samples`. -/
noncomputable def calibOffY (inp : CalibIn) : ℝ :=
  (inp.readings.map (fun p => p.2.1)).sum / 200

/-- `proposedOffsetZ = sumZ / samples`; the source's `rawZMean` is the very
same expression. -/
noncomputable def calibOffZ (inp : CalibIn) : ℝ :=
  (inp.readings.map (fun p => p.2.2)).sum / 200

/-- `Seismograph::calibrate`: stability check (σ ≤ 0.01 g per axis), offset
acquisition (per-axis mean of 200 samples; the Z offset is the raw Z mean),
validation (|X|,|Y| ≤ 0.5 g, |Z| and raw-Z mean in [0.8, 1.5] g), then — only
on success — offset application, bookkeeping and the 10-sample baseline
test. -/
noncomputable def calibrate (s : CalibState) (inp : CalibIn) : CalibState × Bool :=
  if calibStdX inp > 1/100 ∨ calibStdY inp > 1/100 ∨ calibStdZ inp > 1/100 then
    ({ s with calibrationValid := false }, false)
  else if |calibOffX inp| > 1/2 ∨ |calibOffY inp| > 1/2 then
    ({ s with calibrationValid := false }, false)
  else if |calibOffZ inp| < 8/10 ∨ |calibOffZ inp| > 15/10 then
    ({ s with calibrationValid := false }, false)
  else if calibOffZ inp < 8/10 ∨ calibOffZ inp > 15/10 then
    ({ s with calibrationValid := false }, false)
  else
    let s1 := { s with
      offsetX := calibOffX inp
      offsetY := calibOffY inp
      offsetZ := calibOffZ inp
      lastCalibrationOffsets := (calibOffX inp, calibOffY inp, calibOffZ inp)
      lastCalibrationTime := inp.now
      calibrated := true
      calibrationValid := true }
    let testMags := inp.testReadings.map (fun p =>
      Real.sqrt ((p.1 - s1.offsetX) ^ 2 + (p.2.1 - s1.offsetY) ^ 2 +
        (p.2.2 - s1.offsetZ) ^ 2))
    ({ s1 with baselineLTA := testMags.sum / 10 }, true)

/-- The disjunction of the four rejection conditions of `calibrate`, in
source order. -/
def CalibFail (inp : CalibIn) : Prop :=
  (calibStdX inp > 1/100 ∨ calibStdY inp > 1/100 ∨ calibStdZ inp > 1/100) ∨
  (|calibOffX inp| > 1/2 ∨ |calibOffY inp| > 1/2) ∨
  (|calibOffZ inp| < 8/10 ∨ |calibOffZ inp| > 15/10) ∨
  (calibOffZ inp < 8/10 ∨ calibOffZ inp > 15/10)

/-! ### Invariants and concrete fixtures used by the theorems below -/

/-- Windowed-sum fidelity of the trigger state: the incremental sums equal
the recomputed buffer sums, and the buffers/indices stay well-formed. -/
def SumInv (s : SeisState) : Prop :=
  s.staSum = s.staBuffer.sum ∧ s.ltaSum = s.ltaBuffer.sum ∧
  s.staBuffer.length = STA_WINDOW ∧ s.ltaBuffer.length = LTA_WINDOW ∧
  s.staIndex < STA_WINDOW ∧ s.ltaIndex < LTA_WINDOW

/-- A sensor frame used by the concrete runs below. -/
def readingFix : SensorQ :=
  { accelX := 1/100, accelY := 0, accelZ := 0, magnitude := 1/100, timestamp := 1000 }

/-- Environment with trusted wall clock and all singletons wired. -/
def envAccept : Env :=
  { timeValid := true, epochTime := 1700000000, now := 1000,
    reading := readingFix, loggerPresent := true, loggerInit := true,
    managerPresent := true }

/-- Same environment, but the `timeManager` does not trust the wall clock. -/
def envReject : Env := { envAccept with timeValid := false }

/-- A state with an active event that started at boot tick 0. -/
def sActive : SeisState :=
  { initState with
    eventActive := true
    eventStartTime := 0
    eventMaxMagnitude := 1/100
    eventSumMagnitude := 1/100
    eventSampleCount := 1 }

/-- A state whose spike-filter warm-up buffer has latched full. -/
def sSpike : SeisState := { initState with magnitudeBufferFull := true }

/-- A quiet sample far above the (zero) median: filtered as a spike. -/
def dataSpike : SensorQ :=
  { accelX := 10, accelY := 0, accelZ := 0, magnitude := 10, timestamp := 0 }

/-- A sub-trigger sample fed while an event is active. -/
def dataQuiet : SensorQ :=
  { accelX := 0, accelY := 0, accelZ := 0, magnitude := 1/200, timestamp := 1000 }

/-- A full-LTA state with mean LTA 0.0005 g (inside `[0.0001, 0.001)`). -/
def sC8 : SeisState := { initState with ltaFull := true, ltaSum := 5/4 }

/-- The record emitted by `processData sActive dataQuiet envAccept []`. -/
def recC4 : SeismicRecord :=
  { timestamp := 1700000000, ntpValidated := true, bootTimeMs := 1000,
    intensityLevel := 1, pgaG := 1/100, durationMs := 1000,
    maxAccelX := 1/100, maxAccelY := 0, maxAccelZ := 0,
    vectorMagnitude := 1/100, calibrationValid := false }

/-- Calibration input whose stability phase is perfectly steady but whose
X-axis mean offset (0.6 g) violates the 0.5 g validation bound. -/
noncomputable def calibInBadX : CalibIn where
  stability := List.replicate 50 ((0 : ℝ), (0 : ℝ), (1 : ℝ))
  readings := List.replicate 200 ((3/5 : ℝ), (0 : ℝ), (1 : ℝ))
  testReadings := List.replicate 10 ((0 : ℝ), (0 : ℝ), (1 : ℝ))
  now := 0

/-- An arbitrary previous calibration, in force before `calibrate` runs. -/
noncomputable def calibPrev : CalibState where
  offsetX := 1/50
  offsetY := -1/50
  offsetZ := 101/100
  calibrated := true
  calibrationValid := true
  lastCalibrationOffsets := (1/50, -1/50, 101/100)
  lastCalibrationTime := 5
  baselineLTA := 1/200

/-! ## Theorems -/

/-- C2, counterexample: a `TimeManager` that has just synchronized but whose
NTP client reports epoch 0 still answers `isTimeValid() = true`, although the
wall-clock value does not exceed 2020-01-01T00:00:00Z — the conjunct about
`getEpochTime()` in the claim is not checked by the code. -/
theorem C2_counterexample :
    isTimeValid ⟨true, 0, 0⟩ 1000 = true ∧
    getEpochTime ⟨true, 0, 0⟩ 1000 0 ≤ 1577836800 := by
  constructor
  · decide
  · decide

/-- C2, amended: `TimeManager::isTimeValid()` returns `true` iff the manager
is initialized and the last successful NTP synchronization lies within
2 × NTP_SYNC_INTERVAL (2 h) of the current `millis()` tick; the epoch value
returned by `getEpochTime()` is not consulted. -/
theorem C2_time_valid_iff_fresh_sync (st : TMState) (m : ℕ) :
    isTimeValid st m = true ↔
      st.initialized = true ∧ wsub32 m st.lastSync < NTP_SYNC_INTERVAL * 2 := by
  simp [isTimeValid]

/-- Witness for C2 at a concrete state. -/
theorem C2_time_valid_iff_fresh_sync_witness :
    isTimeValid ⟨true, 500, 0⟩ 1000 = true ↔
      (true : Bool) = true ∧ wsub32 1000 500 < NTP_SYNC_INTERVAL * 2 :=
  C2_time_valid_iff_fresh_sync ⟨true, 500, 0⟩ 1000

/-- C1, counterexample: on a concrete rejected event (wall clock untrusted)
no counter dedicated to rejections is incremented — the only counters of the
class are `totalSamples`, `eventsDetected` and `spikesFiltered`; the first
and last are unchanged by the rejecting call, and `eventsDetected` is
incremented by the accepting call in exactly the same way, so it does not
count rejections.  The claimed `events_rejected_no_time` counter does not
exist in the code. -/
theorem C1_counterexample :
    (endEvent sActive envReject []).state.spikesFiltered = sActive.spikesFiltered ∧
    (endEvent sActive envReject []).state.totalSamples = sActive.totalSamples ∧
    (endEvent sActive envReject []).state.eventsDetected = sActive.eventsDetected + 1 ∧
    (endEvent sActive envAccept []).state.eventsDetected = sActive.eventsDetected + 1 := by
  decide

/-- C1, amended: when the event being ended meets an untrusted wall clock,
`endEvent` drops the record — nothing is persisted, nothing is created,
nothing is forwarded, and the whole resulting state differs from the input
state only in the cleared `eventActive` flag and the incremented
`eventsDetected`; no rejection counter exists or is incremented (the
rejection is merely logged). -/
theorem C1_drop_without_trusted_time (s : SeisState) (env : Env)
    (log : List SeismicRecord) (hactive : s.eventActive = true)
    (htime : env.timeValid = false) :
    endEvent s env log =
      ⟨{ s with eventsDetected := s.eventsDetected + 1, eventActive := false },
        log, [], []⟩ := by
  simp [endEvent, hactive, htime]

/-- Witness for C1 on a concrete rejected event. -/
theorem C1_drop_without_trusted_time_witness :
    endEvent sActive envReject [] =
      ⟨{ sActive with eventsDetected := sActive.eventsDetected + 1, eventActive := false },
        [], [], []⟩ :=
  C1_drop_without_trusted_time sActive envReject [] (by decide) (by decide)

/-- `createSeismicEvent` never touches `eventsDetected` (its only state
effects are the embedded `readSensor()` bookkeeping). -/
theorem createSeismicEvent_fst_eventsDetected (s : SeisState) (env : Env)
    (m : ℚ) (d : ℕ) (log : List SeismicRecord) :
    (createSeismicEvent s env m d log).1.eventsDetected = s.eventsDetected := by
  unfold createSeismicEvent
  by_cases htime : env.timeValid = false
  · simp [htime]
  · by_cases hinit : s.initialized <;>
      by_cases hlp : env.loggerPresent <;>
        simp [htime, hinit, hlp]

/-- C10: ending an active event always increments `eventsDetected` by exactly
one, whether or not the wall clock is trusted; with the clock untrusted the
persisted log is unchanged and no record is created, so `eventsDetected` can
exceed the number of persisted `SeismicRecord`s. -/
theorem C10_events_detected_counts_rejections (s : SeisState) (env : Env)
    (log : List SeismicRecord) (hactive : s.eventActive = true) :
    (endEvent s env log).state.eventsDetected = s.eventsDetected + 1 ∧
    (env.timeValid = false →
      (endEvent s env log).log = log ∧ (endEvent s env log).emitted = []) := by
  constructor
  · by_cases htime : env.timeValid = false
    · simp [endEvent, hactive, htime]
    · simp [endEvent, hactive, htime, createSeismicEvent_fst_eventsDetected]
  · intro htime
    simp [endEvent, hactive, htime]

/-- Witness for C10 on a concrete rejected event. -/
theorem C10_events_detected_counts_rejections_witness :
    (endEvent sActive envReject []).state.eventsDetected = sActive.eventsDetected + 1 ∧
    (envReject.timeValid = false →
      (endEvent sActive envReject []).log = [] ∧
      (endEvent sActive envReject []).emitted = []) :=
  C10_events_detected_counts_rejections sActive envReject [] (by decide)

/-- C8, counterexample: with a full LTA buffer whose mean is 0.0005 g
(inside `[0.0001, 0.001)`), the code keeps the noise value as-is instead of
flooring it at 0.001 as the claim states: the stored background noise is
0.0005 and the resulting micro threshold is 0.0015, not the 0.002 the
claimed floor `max(lta, 0.001)` would produce. -/
theorem C8_counterexample :
    (updateAdaptiveThresholds sC8 30000).backgroundNoise = 1/2000 ∧
    (1/2000 : ℚ) ≠ max (sC8.ltaSum / (LTA_WINDOW : ℚ)) (1/1000) ∧
    (updateAdaptiveThresholds sC8 30000).adaptiveThresholdMicro ≠
      THRESHOLD_MICRO *
        constrainQ (1 + max (sC8.ltaSum / (LTA_WINDOW : ℚ)) (1/1000) / THRESHOLD_MICRO)
          (1/2) 3 := by
  refine ⟨?_, ?_, ?_⟩ <;>
    norm_num [updateAdaptiveThresholds, sC8, initState, wsub32, LTA_WINDOW,
      THRESHOLD_MICRO, THRESHOLD_LIGHT, THRESHOLD_STRONG, constrainQ]

/-- C8, amended: an adaptive update fires only when adaptive mode is enabled,
at most once per 30 s, and computes thresholds only with a full LTA buffer;
the noise value `lta_sum/LTA_WINDOW` is replaced by 0.001 only when it lies
below 0.0001 (not floored at 0.001); the adaptation factor is
`clamp(1 + noise/THRESHOLD_MICRO, 0.5, 3.0)` and each new threshold is its
base times that factor (the final `[0.5×, 3×]`-of-base clamp and the
NaN/≤0 fallback never alter that product because the factor is already
clamped and positive). -/
theorem C8_adaptive_update (s : SeisState) (now : ℕ) :
    (s.adaptiveThresholdEnabled = false → updateAdaptiveThresholds s now = s) ∧
    (wsub32 now s.lastAdaptiveUpdate < 30000 → updateAdaptiveThresholds s now = s) ∧
    (s.adaptiveThresholdEnabled = true → ¬ wsub32 now s.lastAdaptiveUpdate < 30000 →
      s.ltaFull = false →
      updateAdaptiveThresholds s now = { s with lastAdaptiveUpdate := now }) ∧
    (s.adaptiveThresholdEnabled = true → ¬ wsub32 now s.lastAdaptiveUpdate < 30000 →
      s.ltaFull = true →
      (updateAdaptiveThresholds s now).backgroundNoise =
        (if s.ltaSum / (LTA_WINDOW : ℚ) < 1/10000 then 1/1000
         else s.ltaSum / (LTA_WINDOW : ℚ)) ∧
      (updateAdaptiveThresholds s now).adaptiveThresholdMicro =
        THRESHOLD_MICRO *
          constrainQ (1 + (updateAdaptiveThresholds s now).backgroundNoise / THRESHOLD_MICRO)
            (1/2) 3 ∧
      (updateAdaptiveThresholds s now).adaptiveThresholdLight =
        THRESHOLD_LIGHT *
          constrainQ (1 + (updateAdaptiveThresholds s now).backgroundNoise / THRESHOLD_MICRO)
            (1/2) 3 ∧
      (updateAdaptiveThresholds s now).adaptiveThresholdStrong =
        THRESHOLD_STRONG *
          constrainQ (1 + (updateAdaptiveThresholds s now).backgroundNoise / THRESHOLD_MICRO)
            (1/2) 3 ∧
      (updateAdaptiveThresholds s now).lastAdaptiveUpdate = now) := by
  refine ⟨?_, ?_, ?_, ?_⟩
  · intro hen; simp [updateAdaptiveThresholds, hen]
  · intro helapsed
    unfold updateAdaptiveThresholds
    by_cases hen : s.adaptiveThresholdEnabled = false <;> simp [hen, helapsed]
  · intro hen helapsed hfull
    simp [updateAdaptiveThresholds, hen, helapsed, hfull]
  · intro hen helapsed hfull
    simp only [updateAdaptiveThresholds, hen, helapsed, hfull,
      show (true = false) = False by simp, if_false, ite_false, if_true, ite_true]
    set noise : ℚ :=
      (if s.ltaSum / (LTA_WINDOW : ℚ) < 1/10000 then 1/1000
        else s.ltaSum / (LTA_WINDOW : ℚ)) with hnoisedef
    have hnoise : (0 : ℚ) < noise := by
      rw [hnoisedef]
      split
      · norm_num
      · next h => exact lt_of_lt_of_le (by norm_num) (not_lt.mp h)
    have hcond : THRESHOLD_MICRO > 0 ∧ noise > 0 := ⟨by norm_num [THRESHOLD_MICRO], hnoise⟩
    rw [if_pos hcond]
    set f : ℚ := constrainQ (1 + noise / THRESHOLD_MICRO) (1/2) 3 with hfdef
    have hfac : (1/2 : ℚ) ≤ f ∧ f ≤ 3 := by
      rw [hfdef]
      unfold constrainQ
      split
      · exact ⟨le_refl _, by norm_num⟩
      · split
        · exact ⟨by norm_num, le_refl _⟩
        · next h1 h2 => exact ⟨not_lt.mp h1, not_lt.mp h2⟩
    have hfpos : (0 : ℚ) < f := lt_of_lt_of_le (by norm_num) hfac.1
    have hmicro : ¬ THRESHOLD_MICRO * f ≤ 0 :=
      not_le.mpr (mul_pos (by norm_num [THRESHOLD_MICRO]) hfpos)
    have hlight : ¬ THRESHOLD_LIGHT * f ≤ 0 :=
      not_le.mpr (mul_pos (by norm_num [THRESHOLD_LIGHT]) hfpos)
    have hstrong : ¬ THRESHOLD_STRONG * f ≤ 0 :=
      not_le.mpr (mul_pos (by norm_num [THRESHOLD_STRONG]) hfpos)
    rw [if_neg hmicro, if_neg hlight, if_neg hstrong]
    refine ⟨trivial, ?_, ?_, ?_, trivial⟩ <;>
    · unfold constrainQ
      rw [if_neg (not_lt.mpr (mul_le_mul_of_nonneg_left hfac.1
          (by norm_num [THRESHOLD_MICRO, THRESHOLD_LIGHT, THRESHOLD_STRONG]))),
        if_neg (not_lt.mpr (mul_le_mul_of_nonneg_left hfac.2
          (by norm_num [THRESHOLD_MICRO, THRESHOLD_LIGHT, THRESHOLD_STRONG])))]

/-- Witness for C8 on a concrete state with mean LTA 0.0005 g: the enabling
hypotheses hold and the thresholds come out as base × clamped factor. -/
theorem C8_adaptive_update_witness :
    sC8.adaptiveThresholdEnabled = true ∧
    ¬ wsub32 30000 sC8.lastAdaptiveUpdate < 30000 ∧
    sC8.ltaFull = true ∧
    ((updateAdaptiveThresholds sC8 30000).backgroundNoise =
        (if sC8.ltaSum / (LTA_WINDOW : ℚ) < 1/10000 then 1/1000
         else sC8.ltaSum / (LTA_WINDOW : ℚ)) ∧
      (updateAdaptiveThresholds sC8 30000).adaptiveThresholdMicro =
        THRESHOLD_MICRO *
          constrainQ (1 + (updateAdaptiveThresholds sC8 30000).backgroundNoise / THRESHOLD_MICRO)
            (1/2) 3 ∧
      (updateAdaptiveThresholds sC8 30000).adaptiveThresholdLight =
        THRESHOLD_LIGHT *
          constrainQ (1 + (updateAdaptiveThresholds sC8 30000).backgroundNoise / THRESHOLD_MICRO)
            (1/2) 3 ∧
      (updateAdaptiveThresholds sC8 30000).adaptiveThresholdStrong =
        THRESHOLD_STRONG *
          constrainQ (1 + (updateAdaptiveThresholds sC8 30000).backgroundNoise / THRESHOLD_MICRO)
            (1/2) 3 ∧
      (updateAdaptiveThresholds sC8 30000).lastAdaptiveUpdate = 30000) :=
  ⟨by decide, by decide, by decide,
    (C8_adaptive_update sC8 30000).2.2.2 (by decide) (by decide) (by decide)⟩

/-- C5: `checkEventTrigger` fires iff both ring buffers have latched full and
the ratio of the short-term to the long-term average strictly exceeds
`STA_LTA_RATIO` = 2.5; whenever `ltaSum = 0` the guard returns `false`
before the ratio is formed, so no division by zero is evaluated. -/
theorem C5_trigger_iff (s : SeisState) :
    (checkEventTrigger s = true ↔
      s.staFull = true ∧ s.ltaFull = true ∧
        (s.staSum / (STA_WINDOW : ℚ)) / (s.ltaSum / (LTA_WINDOW : ℚ)) > STA_LTA_RATIO) ∧
    (s.ltaSum = 0 → checkEventTrigger s = false) := by
  constructor
  · unfold checkEventTrigger
    by_cases hs : s.staFull = true
    · by_cases hl : s.ltaFull = true
      · simp only [hs, hl, Bool.false_eq_true]
        by_cases hz : s.ltaSum / (LTA_WINDOW : ℚ) = 0
        · simp [hz, STA_LTA_RATIO]
          norm_num
        · simp [hz]
      · have hl' : s.ltaFull = false := by revert hl; cases s.ltaFull <;> simp
        simp [hs, hl']
    · have hs' : s.staFull = false := by revert hs; cases s.staFull <;> simp
      simp [hs']
  · intro h
    unfold checkEventTrigger
    have : s.ltaSum / (LTA_WINDOW : ℚ) = 0 := by rw [h]; simp
    by_cases hs : s.staFull = false <;> by_cases hl : s.ltaFull = false <;>
      simp [hs, hl, this]

/-- Witness for C5 at a concrete state with `ltaSum = 0`. -/
theorem C5_trigger_iff_witness :
    (checkEventTrigger initState = true ↔
      initState.staFull = true ∧ initState.ltaFull = true ∧
        (initState.staSum / (STA_WINDOW : ℚ)) / (initState.ltaSum / (LTA_WINDOW : ℚ)) >
          STA_LTA_RATIO) ∧
    (initState.ltaSum = 0 → checkEventTrigger initState = false) :=
  C5_trigger_iff initState

/-- C6: after the five-sample warm-up buffer has filled, a sample is rejected
as a spike iff it strictly exceeds both five times the median of the last
five buffered magnitudes and twice the active micro threshold (the adaptive
one when adaptive mode is enabled, else `THRESHOLD_MICRO`); before the buffer
fills no sample is rejected; a rejected sample only increments
`spikesFiltered` — the STA/LTA trigger state and everything else are left
untouched and no record or packet is produced. -/
theorem C6_spike_rejection (s : SeisState) (data : SensorQ) (env : Env)
    (log : List SeismicRecord) :
    (s.magnitudeBufferFull = false → isSpikeFiltered s data.magnitude = false) ∧
    (s.magnitudeBufferFull = true →
      (isSpikeFiltered s data.magnitude = true ↔
        data.magnitude > getMedianMagnitude s.lastMagnitudes * SPIKE_MEDIAN_MULTIPLIER ∧
        data.magnitude >
          (if s.adaptiveThresholdEnabled then s.adaptiveThresholdMicro else THRESHOLD_MICRO) *
            SPIKE_THRESHOLD_MULTIPLIER)) ∧
    (isSpikeFiltered s data.magnitude = true →
      processData s data env log =
        ⟨{ s with spikesFiltered := s.spikesFiltered + 1 }, log, [], []⟩) := by
  refine ⟨?_, ?_, ?_⟩
  · intro h; simp [isSpikeFiltered, h]
  · intro h
    simp only [isSpikeFiltered, h, Bool.false_eq_true, ite_false, ite_true,
      Bool.and_eq_true, decide_eq_true_eq]
    simp
  · intro h
    simp [processData, h]

/-- Witness for C6 on a concrete spike (magnitude 10 g against a zero
median). -/
theorem C6_spike_rejection_witness :
    sSpike.magnitudeBufferFull = true ∧
    isSpikeFiltered sSpike dataSpike.magnitude = true ∧
    processData sSpike dataSpike envAccept [] =
      ⟨{ sSpike with spikesFiltered := sSpike.spikesFiltered + 1 }, [], [], []⟩ := by
  have hspike : isSpikeFiltered sSpike dataSpike.magnitude = true := by
    norm_num [isSpikeFiltered, sSpike, dataSpike, initState, getMedianMagnitude, selPass,
      argminFrom, swapAt, SPIKE_MEDIAN_MULTIPLIER, SPIKE_THRESHOLD_MULTIPLIER,
      THRESHOLD_MICRO, List.range_succ]
  exact ⟨by decide, hspike,
    (C6_spike_rejection sSpike dataSpike envAccept []).2.2 hspike⟩

/-- Every record built by `createSeismicEvent` carries exactly the duration
handed to it. -/
theorem createSeismicEvent_emitted_duration (s : SeisState) (env : Env) (m : ℚ)
    (d : ℕ) (log : List SeismicRecord) (r : SeismicRecord)
    (hr : r ∈ (createSeismicEvent s env m d log).2.2) : r.durationMs = d := by
  unfold createSeismicEvent at hr
  by_cases ht : env.timeValid = false
  · simp [ht] at hr
  · by_cases hlp : env.loggerPresent = true <;>
      simp [ht, hlp] at hr <;> rw [hr]

/-- Every record emitted by `endEvent` carries the elapsed time
`millis() - eventStartTime` as its duration. -/
theorem endEvent_emitted_duration (s : SeisState) (env : Env)
    (log : List SeismicRecord) (r : SeismicRecord)
    (hr : r ∈ (endEvent s env log).emitted) :
    r.durationMs = wsub32 env.now s.eventStartTime := by
  unfold endEvent at hr
  by_cases ha : s.eventActive = false
  · simp [ha] at hr
  · by_cases ht : env.timeValid = false
    · simp [ha, ht] at hr
    · simp only [ha, ht, Bool.false_eq_true, ite_false] at hr
      exact createSeismicEvent_emitted_duration _ _ _ _ _ _ hr

/-- C4, amended (detector path): every record emitted by `processData` has
`durationMs ≥ MIN_EVENT_DURATION` (100 ms), because `endEvent` is reached
only behind the `eventDuration >= MIN_EVENT_DURATION` guard and stamps that
same elapsed time into the record.  (The simulation path is *not* covered:
see the counterexample.) -/
theorem C4_detector_min_duration (s : SeisState) (data : SensorQ) (env : Env)
    (log : List SeismicRecord) (r : SeismicRecord)
    (hr : r ∈ (processData s data env log).emitted) :
    MIN_EVENT_DURATION ≤ r.durationMs := by
  have tail : ∀ (s4 : SeisState),
      r ∈ (processDataEvents s4 data env log).emitted → MIN_EVENT_DURATION ≤ r.durationMs := by
    intro s4 h4
    unfold processDataEvents at h4
    split at h4
    · simp at h4
    · split at h4
      · simp only at h4
        split at h4
        · next hdur =>
          simp only at h4
          rw [endEvent_emitted_duration _ _ _ _ h4]
          exact hdur
        · simp at h4
      · simp at h4
  unfold processData at hr
  by_cases hspike : isSpikeFiltered s data.magnitude = true
  · rw [if_pos hspike] at hr
    simp at hr
  · rw [if_neg hspike] at hr
    simp only at hr
    exact tail _ hr

/-- Witness for C4 on a concrete detector-path emission (an active event,
sub-trigger sample, 1000 ms elapsed). -/
theorem C4_detector_min_duration_witness :
    recC4 ∈ (processData sActive dataQuiet envAccept []).emitted ∧
    MIN_EVENT_DURATION ≤ recC4.durationMs := by
  have hmem : recC4 ∈ (processData sActive dataQuiet envAccept []).emitted := by
    norm_num [processData, processDataEvents, isSpikeFiltered, sActive, dataQuiet,
      envAccept, readingFix, initState, recC4, updateAdaptiveThresholds, updateSTALTA,
      checkEventTrigger, checkCalibrationDrift, endEvent, createSeismicEvent,
      logSeismicEvent, classifyEventQ, startEvent, wsub32, STA_WINDOW, LTA_WINDOW,
      THRESHOLD_MICRO, MIN_EVENT_DURATION, StepOut.emitted,
      show |(1/100 : ℚ)| = 1/100 from abs_of_nonneg (by norm_num)]
  exact ⟨hmem, C4_detector_min_duration sActive dataQuiet envAccept [] recC4 hmem⟩

/-- One accumulation step of the simulation loop leaves the event-lifecycle
bookkeeping (`eventActive`, `eventStartTime`) untouched. -/
theorem simulateAccum_preserves (pga : ℚ) (t : SeisState) (i : ℕ) :
    (simulateAccum pga t i).eventActive = t.eventActive ∧
    (simulateAccum pga t i).eventStartTime = t.eventStartTime := by
  unfold simulateAccum
  constructor <;> (dsimp only; split <;> rfl)

/-- The whole simulation accumulation loop leaves `eventActive` and
`eventStartTime` untouched. -/
theorem foldl_simulateAccum_preserves (pga : ℚ) (l : List ℕ) (t : SeisState) :
    (l.foldl (simulateAccum pga) t).eventActive = t.eventActive ∧
    (l.foldl (simulateAccum pga) t).eventStartTime = t.eventStartTime := by
  induction l generalizing t with
  | nil => exact ⟨rfl, rfl⟩
  | cons a l ih =>
    simp only [List.foldl_cons]
    exact ⟨(ih (simulateAccum pga t a)).1.trans (simulateAccum_preserves pga t a).1,
      (ih (simulateAccum pga t a)).2.trans (simulateAccum_preserves pga t a).2⟩

/-- `createSeismicEvent` does not change `eventActive`. -/
theorem createSeismicEvent_state_eventActive (s : SeisState) (env : Env) (m : ℚ)
    (d : ℕ) (log : List SeismicRecord) :
    (createSeismicEvent s env m d log).1.eventActive = s.eventActive := by
  unfold createSeismicEvent
  by_cases ht : env.timeValid = false
  · simp [ht]
  · by_cases hinit : s.initialized <;> by_cases hlp : env.loggerPresent <;>
      simp [ht, hinit, hlp]

/-- Ending an active event clears `eventActive`. -/
theorem endEvent_clears_eventActive (s : SeisState) (env : Env)
    (log : List SeismicRecord) (ha : s.eventActive = true) :
    (endEvent s env log).state.eventActive = false := by
  unfold endEvent
  rw [if_neg (by simp [ha])]
  by_cases ht : env.timeValid = false
  · simp [ht]
  · simp [ht, createSeismicEvent_state_eventActive]

/-- With a trusted wall clock, `createSeismicEvent` creates exactly one
record, carrying the duration handed to it. -/
theorem createSeismicEvent_emitted_of_valid (s : SeisState) (env : Env) (m : ℚ)
    (d : ℕ) (log : List SeismicRecord) (ht : env.timeValid = true) :
    (createSeismicEvent s env m d log).2.2.map SeismicRecord.durationMs = [d] := by
  unfold createSeismicEvent
  rw [if_neg (by simp [ht])]
  by_cases hlp : env.loggerPresent = true <;> simp [hlp]

/-- Ending an active event with a trusted wall clock emits exactly one record
whose duration is the elapsed time since the event started. -/
theorem endEvent_emitted_map_duration (s : SeisState) (env : Env)
    (log : List SeismicRecord) (ha : s.eventActive = true)
    (ht : env.timeValid = true) :
    (endEvent s env log).emitted.map SeismicRecord.durationMs =
      [wsub32 env.now s.eventStartTime] := by
  unfold endEvent
  rw [if_neg (by simp [ha]), if_neg (by simp [ht])]
  exact createSeismicEvent_emitted_of_valid _ _ _ _ _ ht

/-- `updateAdaptiveThresholds` does not change `eventActive`. -/
theorem updateAdaptiveThresholds_eventActive (s : SeisState) (now : ℕ) :
    (updateAdaptiveThresholds s now).eventActive = s.eventActive := by
  unfold updateAdaptiveThresholds
  split
  · rfl
  · split
    · rfl
    · dsimp only
      split <;> rfl

/-- The event tail of `processData` emits nothing while no event is active. -/
theorem processDataEvents_emitted_nil (s4 : SeisState) (data : SensorQ)
    (env : Env) (log : List SeismicRecord) (h : s4.eventActive = false) :
    (processDataEvents s4 data env log).emitted = [] := by
  unfold processDataEvents
  split
  · rfl
  · rw [if_neg (by simp [h])]

/-- `processData` emits no record while no event is active. -/
theorem processData_emitted_nil (s : SeisState) (data : SensorQ) (env : Env)
    (log : List SeismicRecord) (h : s.eventActive = false) :
    (processData s data env log).emitted = [] := by
  unfold processData
  split
  · rfl
  · simp only
    apply processDataEvents_emitted_nil
    rw [show ∀ t m, (updateSTALTA t m).eventActive = t.eventActive from fun _ _ => rfl,
      updateAdaptiveThresholds_eventActive]
    exact h

/-- C4, counterexample (simulation path): `simulateEvent(0.0)` — whose PGA
argument 20/196133 g is exactly `calculatePGAFromRichter 0` — delays only
`calculateEventDuration(0)/10 = 10` ms between `startEvent` and `endEvent`,
so the emitted record carries `durationMs = 10 < MIN_EVENT_DURATION`: the
claim fails on the simulation path. -/
theorem C4_counterexample :
    ((20/196133 : ℝ) = calculatePGAFromRichter 0) ∧
    (simulateEvent initState envAccept [] 0 (20/196133)).emitted.map
      SeismicRecord.durationMs = [10] ∧
    (10 : ℕ) < MIN_EVENT_DURATION := by
  refine ⟨?_, ?_, by decide⟩
  · unfold calculatePGAFromRichter constrainR
    norm_num [Real.rpow_zero]
  · have hdur : calculateEventDuration 0 = 100 := by
      norm_num [calculateEventDuration, constrainNat]
      decide
    unfold simulateEvent
    rw [if_pos (show initState.eventActive = false from rfl)]
    simp only [hdur]
    rw [List.map_append]
    rw [endEvent_emitted_map_duration, processData_emitted_nil]
    · simp only [List.map_nil, List.append_nil]
      rw [(foldl_simulateAccum_preserves _ _ _).2]
      decide
    · apply endEvent_clears_eventActive
      rw [(foldl_simulateAccum_preserves _ _ _).1]
      rfl
    · rw [(foldl_simulateAccum_preserves _ _ _).1]
      rfl
    · rfl

/-- Replacing the entry at a valid index changes a list's sum by the
difference of the new and old entries. -/
theorem sum_set_rat (l : List ℚ) (i : ℕ) (a : ℚ) (h : i < l.length) :
    (l.set i a).sum = l.sum - l.getD i 0 + a := by
  induction l generalizing i with
  | nil => simp at h
  | cons b t ih =>
    cases i with
    | zero =>
      simp only [List.set_cons_zero, List.sum_cons, List.getD_cons_zero]
      ring
    | succ n =>
      simp only [List.set_cons_succ, List.sum_cons, List.getD_cons_succ]
      rw [ih n (by simpa using h)]
      ring

/-- One `updateSTALTA` step preserves windowed-sum fidelity. -/
theorem updateSTALTA_SumInv (s : SeisState) (m : ℚ) (h : SumInv s) :
    SumInv (updateSTALTA s m) := by
  obtain ⟨h1, h2, h3, h4, h5, h6⟩ := h
  unfold updateSTALTA SumInv
  dsimp only
  refine ⟨?_, ?_, ?_, ?_, ?_, ?_⟩
  · rw [sum_set_rat _ _ _ (by rw [h3]; exact h5), h1]
  · rw [sum_set_rat _ _ _ (by rw [h4]; exact h6), h2]
  · rw [List.length_set]; exact h3
  · rw [List.length_set]; exact h4
  · exact Nat.mod_lt _ (by decide)
  · exact Nat.mod_lt _ (by decide)

/-- The constructor state satisfies windowed-sum fidelity. -/
theorem initState_SumInv : SumInv initState := by
  refine ⟨?_, ?_, ?_, ?_, ?_, ?_⟩
  · show (0 : ℚ) = (List.replicate STA_WINDOW (0 : ℚ)).sum
    rw [List.sum_replicate, smul_zero]
  · show (0 : ℚ) = (List.replicate LTA_WINDOW (0 : ℚ)).sum
    rw [List.sum_replicate, smul_zero]
  · exact List.length_replicate _ _
  · exact List.length_replicate _ _
  · decide
  · decide

/-- C3: feeding any sequence of admitted magnitudes to `updateSTALTA` from
the zero-initialized constructor state keeps `staSum` equal to the sum of the
`staBuffer` entries and `ltaSum` equal to the sum of the `ltaBuffer` entries
(the incremental sliding-window sums never diverge from the
recomputed-from-scratch sums, in exact arithmetic); quantifying over all
prefixes gives the property after every call. -/
theorem C3_window_sum_fidelity (ms : List ℚ) :
    (ms.foldl updateSTALTA initState).staSum =
      (ms.foldl updateSTALTA initState).staBuffer.sum ∧
    (ms.foldl updateSTALTA initState).ltaSum =
      (ms.foldl updateSTALTA initState).ltaBuffer.sum := by
  have key : ∀ (l : List ℚ) (t : SeisState), SumInv t → SumInv (l.foldl updateSTALTA t) := by
    intro l
    induction l with
    | nil => intro t ht; exact ht
    | cons a l ih => intro t ht; exact ih _ (updateSTALTA_SumInv t a ht)
  have h := key ms initState initState_SumInv
  exact ⟨h.1, h.2.1⟩

/-- C9: whenever `calibrate` rejects — in the stability phase (some axis
standard deviation above 0.01 g) or in validation (|X| or |Y| offset above
0.5 g, |Z| offset outside [0.8, 1.5] g, or raw-Z mean outside [0.8, 1.5] g) —
it returns `false`, leaves `calibrationValid = false` and keeps the
previously applied offsets untouched; the offsets are overwritten only on
the success path (`calibrate` then returns `true`). -/
theorem C9_calibrate_reject_preserves (s : CalibState) (inp : CalibIn) :
    (CalibFail inp →
      (calibrate s inp).1.offsetX = s.offsetX ∧
      (calibrate s inp).1.offsetY = s.offsetY ∧
      (calibrate s inp).1.offsetZ = s.offsetZ ∧
      (calibrate s inp).1.calibrationValid = false ∧
      (calibrate s inp).2 = false) ∧
    (¬ CalibFail inp → (calibrate s inp).2 = true) := by
  unfold calibrate CalibFail
  by_cases h1 : calibStdX inp > 1/100 ∨ calibStdY inp > 1/100 ∨ calibStdZ inp > 1/100
  · rw [if_pos h1]
    exact ⟨fun _ => ⟨rfl, rfl, rfl, rfl, rfl⟩, fun hnf => absurd (Or.inl h1) hnf⟩
  · rw [if_neg h1]
    by_cases h2 : |calibOffX inp| > 1/2 ∨ |calibOffY inp| > 1/2
    · rw [if_pos h2]
      exact ⟨fun _ => ⟨rfl, rfl, rfl, rfl, rfl⟩,
        fun hnf => absurd (Or.inr (Or.inl h2)) hnf⟩
    · rw [if_neg h2]
      by_cases h3 : |calibOffZ inp| < 8/10 ∨ |calibOffZ inp| > 15/10
      · rw [if_pos h3]
        exact ⟨fun _ => ⟨rfl, rfl, rfl, rfl, rfl⟩,
          fun hnf => absurd (Or.inr (Or.inr (Or.inl h3))) hnf⟩
      · rw [if_neg h3]
        by_cases h4 : calibOffZ inp < 8/10 ∨ calibOffZ inp > 15/10
        · rw [if_pos h4]
          exact ⟨fun _ => ⟨rfl, rfl, rfl, rfl, rfl⟩,
            fun hnf => absurd (Or.inr (Or.inr (Or.inr h4))) hnf⟩
        · rw [if_neg h4]
          refine ⟨fun hf => ?_, fun _ => rfl⟩
          rcases hf with h | h | h | h
          · exact absurd h h1
          · exact absurd h h2
          · exact absurd h h3
          · exact absurd h h4

/-- Witness for C9: perfectly steady stability phase, but the X-axis mean
offset is 0.6 g > 0.5 g, so the run rejects and the previous calibration
stays in force. -/
theorem C9_calibrate_reject_preserves_witness :
    CalibFail calibInBadX ∧
    ((calibrate calibPrev calibInBadX).1.offsetX = calibPrev.offsetX ∧
     (calibrate calibPrev calibInBadX).1.offsetY = calibPrev.offsetY ∧
     (calibrate calibPrev calibInBadX).1.offsetZ = calibPrev.offsetZ ∧
     (calibrate calibPrev calibInBadX).1.calibrationValid = false ∧
     (calibrate calibPrev calibInBadX).2 = false) := by
  have hoff : calibOffX calibInBadX = 3/5 := by
    unfold calibOffX calibInBadX
    rw [List.map_replicate]
    rw [List.sum_replicate]
    norm_num
  have hfail : CalibFail calibInBadX := by
    refine Or.inr (Or.inl (Or.inl ?_))
    rw [hoff]
    rw [abs_of_nonneg (by norm_num)]
    norm_num
  exact ⟨hfail, (C9_calibrate_reject_preserves calibPrev calibInBadX).1 hfail⟩

/-- `constrain` collapses to its argument when neither bound binds. -/
theorem constrainR_eq_self (x lo hi : ℝ) (h1 : ¬ x < lo) (h2 : ¬ x > hi) :
    constrainR x lo hi = x := by
  unfold constrainR
  rw [if_neg h1, if_neg h2]

/-- `constrain` collapses to the upper bound when the argument exceeds it. -/
theorem constrainR_eq_hi (x lo hi : ℝ) (h1 : ¬ x < lo) (h2 : x > hi) :
    constrainR x lo hi = hi := by
  unfold constrainR
  rw [if_neg h1, if_pos h2]

/-- `calculateRichterMagnitude` on a positive PGA is the clamped logarithm. -/
theorem calculateRichterMagnitude_of_pos (a : ℝ) (ha : ¬ a ≤ 0) :
    calculateRichterMagnitude a =
      constrainR (Real.logb 10 (a * 9806.65) - LOCAL_MAGNITUDE_OFFSET) (-2) 10 := by
  simp only [calculateRichterMagnitude]
  rw [if_neg ha]

/-- `logb 10 98066.5 < 5`, the cap that the 10 g PGA clamp imposes on the
round-tripped Richter value. -/
theorem logb_cap_lt_five : Real.logb 10 98066.5 < 5 := by
  rw [Real.logb_lt_iff_lt_rpow (by norm_num) (by norm_num)]
  rw [show ((5 : ℝ)) = ((5 : ℕ) : ℝ) by norm_num, Real.rpow_natCast]
  norm_num

/-- C7, counterexample: at `R = 6`, `calculatePGAFromRichter` clamps the PGA
to 10 g, and `calculateRichterMagnitude 10 = logb 10 98066.5 < 5`, so the
round trip misses 6 by more than 1 — far beyond the claimed 1e-3. -/
theorem C7_counterexample :
    |calculateRichterMagnitude (calculatePGAFromRichter 6) - 6| > 1/1000 := by
  have hnn : (0 : ℝ) ≤ Real.logb 10 98066.5 :=
    Real.logb_nonneg (by norm_num) (by norm_num)
  have h1 : calculatePGAFromRichter 6 = 10 := by
    simp only [calculatePGAFromRichter]
    rw [constrainR_eq_self 6 (-2) 10 (by norm_num) (by norm_num)]
    rw [show ((6 : ℝ)) = ((6 : ℕ) : ℝ) by norm_num, Real.rpow_natCast]
    rw [constrainR_eq_hi _ _ _ (by norm_num) (by norm_num)]
  rw [h1]
  have h2 : calculateRichterMagnitude 10 = Real.logb 10 98066.5 := by
    rw [calculateRichterMagnitude_of_pos 10 (by norm_num)]
    rw [show ((10 : ℝ) * 9806.65) = 98066.5 by norm_num]
    rw [show (Real.logb 10 98066.5 - LOCAL_MAGNITUDE_OFFSET) = Real.logb 10 98066.5 by
      rw [show LOCAL_MAGNITUDE_OFFSET = 0 from rfl, sub_zero]]
    exact constrainR_eq_self _ _ _ (by push_neg; linarith)
      (by push_neg; nlinarith [logb_cap_lt_five])
  rw [h2]
  have h3 := logb_cap_lt_five
  rw [abs_sub_comm, abs_of_pos (by linarith)]
  linarith

/-- C7, amended: the round trip
`calculateRichterMagnitude (calculatePGAFromRichter R) = R` holds exactly
(hence within 1e-3) for `0 ≤ R ≤ logb 10 98066.5 ≈ 4.99`; beyond that the
10 g PGA clamp caps the result (see the counterexample), so the claimed
interval [0, 8] must shrink to [0, logb 10 98066.5]. -/
theorem C7_roundtrip (R : ℝ) (h0 : 0 ≤ R) (h1 : R ≤ Real.logb 10 98066.5) :
    calculateRichterMagnitude (calculatePGAFromRichter R) = R := by
  have hR5 : R < 5 := lt_of_le_of_lt h1 logb_cap_lt_five
  have hpow_ge : (1 : ℝ) ≤ (10 : ℝ) ^ R := by
    calc (1 : ℝ) = (10 : ℝ) ^ (0 : ℝ) := (Real.rpow_zero 10).symm
    _ ≤ (10 : ℝ) ^ R := (Real.rpow_le_rpow_left_iff (by norm_num)).mpr h0
  have hpow_le : (10 : ℝ) ^ R ≤ 98066.5 := by
    calc (10 : ℝ) ^ R ≤ (10 : ℝ) ^ Real.logb 10 98066.5 :=
      (Real.rpow_le_rpow_left_iff (by norm_num)).mpr h1
    _ = 98066.5 := Real.rpow_logb (by norm_num) (by norm_num) (by norm_num)
  have hpga : calculatePGAFromRichter R = (10 : ℝ) ^ R / 9806.65 := by
    simp only [calculatePGAFromRichter]
    rw [constrainR_eq_self R (-2) 10 (by push_neg; linarith) (by push_neg; linarith)]
    refine constrainR_eq_self _ _ _ ?_ ?_
    · push_neg
      have hstep : (1 : ℝ)/9806.65 ≤ (10 : ℝ) ^ R / 9806.65 :=
        (div_le_div_iff_of_pos_right (by norm_num)).mpr hpow_ge
      calc (1 : ℝ)/10000 ≤ 1/9806.65 := by norm_num
        _ ≤ (10 : ℝ) ^ R / 9806.65 := hstep
    · push_neg
      have hstep : (10 : ℝ) ^ R / 9806.65 ≤ 98066.5 / 9806.65 :=
        (div_le_div_iff_of_pos_right (by norm_num)).mpr hpow_le
      calc (10 : ℝ) ^ R / 9806.65 ≤ 98066.5 / 9806.65 := hstep
        _ = 10 := by norm_num
  rw [hpga]
  have hpos : (0 : ℝ) < (10 : ℝ) ^ R / 9806.65 :=
    div_pos (by linarith) (by norm_num)
  rw [calculateRichterMagnitude_of_pos _ (not_le.mpr hpos)]
  rw [div_mul_cancel₀ _ (show (9806.65 : ℝ) ≠ 0 by norm_num)]
  rw [Real.logb_rpow (by norm_num) (by norm_num)]
  rw [show LOCAL_MAGNITUDE_OFFSET = 0 from rfl, sub_zero]
  exact constrainR_eq_self _ _ _ (by push_neg; linarith) (by push_neg; linarith)

/-- Witness for C7 at `R = 0`. -/
theorem C7_roundtrip_witness :
    (0 : ℝ) ≤ 0 ∧ (0 : ℝ) ≤ Real.logb 10 98066.5 ∧
    calculateRichterMagnitude (calculatePGAFromRichter 0) = 0 :=
  ⟨le_refl 0, Real.logb_nonneg (by norm_num) (by norm_num),
    C7_roundtrip 0 (le_refl 0) (Real.logb_nonneg (by norm_num) (by norm_num))⟩

end Seismo
